import Mathlib

/-!
Shallow embedding of the sentilytics core services
(`app/services/prediction_service.py`, `app/services/cache_service.py`).

Python floats are modelled by exact rationals (`ℚ`); `datetime` values are
modelled at the granularity the code observes them: cache fetch timestamps as
rational minutes, calendar dates as ISO day strings.  Division by zero follows
the Lean convention `q / 0 = 0`; no verified claim depends on such a branch.
The two float-only primitives that have no exact rational counterpart —
`np.sqrt` (used only inside the volatility estimate) and `np.random.normal`
(the forecast noise) — are taken as parameters, so every theorem below holds
for every choice of those functions.
-/

namespace Sentilytics

/-! ### String primitives

Python string operations are modelled structurally over the character
list of a `String` (the iterator-based core implementations do not reduce
inside the kernel).  `pyUpper` is `str.upper()` (ASCII, all the identifiers
the system uses), `lexLe` the lexicographic code-point comparison Python
and the database apply to the ISO date strings, `splitFirstToken` the
`s.split()[0]` of a date string. -/

/-- `str.upper()`. -/
def pyUpper (s : String) : String := ⟨s.data.map Char.toUpper⟩

/-- Lexicographic `≤` on character lists (Python string comparison; equals
chronological order on ISO date strings). -/
def lexLe : List Char → List Char → Bool
  | [], _ => true
  | _ :: _, [] => false
  | a :: as, b :: bs =>
    if a < b then true
    else if b < a then false
    else lexLe as bs

/-- Python string `a <= b`. -/
def strLe (a b : String) : Bool := lexLe a.data b.data

/-- `s.split()[0]`: the characters before the first space.  (Date strings
never start with whitespace, where Python's `split` would behave
differently.) -/
def splitFirstToken : List Char → List Char
  | [] => []
  | c :: cs => if c = ' ' then [] else c :: splitFirstToken cs

/-- Python `max` over a list of strings (`none` on the empty list, where
Python raises `ValueError`). -/
def pyMaxStr (l : List String) : Option String :=
  l.foldl (fun acc s =>
    match acc with
    | none => some s
    | some m => some (if strLe m s then s else m)) none

/-- `np.mean`: arithmetic mean (`0` on the empty list, never hit by the
claims below on an empty list). -/
def mean (l : List ℚ) : ℚ := l.sum / l.length

/-- `np.diff`: consecutive differences `[x₁-x₀, x₂-x₁, …]`. -/
def npDiff (l : List ℚ) : List ℚ := List.zipWith (fun a b => a - b) l.tail l

/-- Python's trailing slice `l[-n:]` (for `n = 0`, `l[-0:]` is the whole
list). -/
def pySliceLast (n : ℕ) (l : List ℚ) : List ℚ :=
  if n = 0 then l else l.drop (l.length - n)

/-- `np.std` squared, i.e. the population variance `mean ((x - mean l)²)`. -/
def npVariance (l : List ℚ) : ℚ := mean (l.map (fun x => (x - mean l) ^ 2))

/-- `round(x, d)` / `np.round(x, d)` on exact rationals.  (Float rounding is
round-half-to-even; ties never occur in the verified claims.) -/
def npRound (d : ℕ) (x : ℚ) : ℚ := ((round (x * 10 ^ d) : ℤ) : ℚ) / 10 ^ d

/-! ### `prediction_service.calculate_rsi` -/

/-- `calculate_rsi(closes, period)` from `prediction_service.py`. -/
def calculate_rsi (closes : List ℚ) (period : ℕ) : ℚ :=
  if closes.length < period + 1 then 50
  else
    let deltas := npDiff closes
    let gains := deltas.map (fun d => if d > 0 then d else 0)
    let losses := deltas.map (fun d => if d < 0 then -d else 0)
    let avg_gain := mean (pySliceLast period gains)
    let avg_loss := mean (pySliceLast period losses)
    if avg_loss = 0 then 100
    else
      let rs := avg_gain / avg_loss
      100 - 100 / (1 + rs)

/-! ### `prediction_service.calculate_technical_indicators` -/

/-- One point of the historical series as the services exchange it: the dict
`{date, open, high, low, close, volume, change_percent}`. -/
structure TimeSeriesPoint where
  date : String
  openP : ℚ
  highP : ℚ
  lowP : ℚ
  closeP : ℚ
  volume : ℚ
  change_percent : Option ℚ
deriving DecidableEq, Repr

/-- `calculate_technical_indicators(data)`.  The returned Python dict is
modelled as an association list so that key presence is observable (the
`< 20` branch returns a dict with only three keys).  `sqrtQ` models
`np.sqrt` / the square root inside `np.std`. -/
def calculate_technical_indicators (sqrtQ : ℚ → ℚ)
    (data : List TimeSeriesPoint) : List (String × ℚ) :=
  if data.length < 20 then [("trend", 0), ("momentum", 0), ("volatility", 0)]
  else
    let closes := data.map (·.closeP)
    let sma_5 := mean (pySliceLast 5 closes)
    let sma_20 := mean (pySliceLast 20 closes)
    let trend0 := if sma_20 ≠ 0 then (sma_5 - sma_20) / sma_20 else 0
    let trend := max (min (trend0 * 10) 1) (-1)
    let cLast := closes.getLastD 0
    let cBack5 := (pySliceLast 5 closes).headD 0
    let roc := if cBack5 ≠ 0 then (cLast - cBack5) / cBack5 else 0
    let momentum := max (min (roc * 5) 1) (-1)
    let returns := List.zipWith (fun a b => a / b) (npDiff closes) closes.dropLast
    let volatility := if 1 < returns.length then sqrtQ (npVariance returns) * sqrtQ 252 else 0
    let rsi := calculate_rsi closes 14
    [("trend", npRound 4 trend), ("momentum", npRound 4 momentum),
     ("volatility", npRound 4 volatility), ("rsi", npRound 2 rsi),
     ("sma_5", npRound 2 sma_5), ("sma_20", npRound 2 sma_20),
     ("current_price", npRound 2 cLast)]

/-! ### `prediction_service.generate_prediction` -/

/-- Result of `get_sentiment_analysis` as consumed by `generate_prediction`
(a black-box network call, hence a parameter). -/
structure SentimentResult where
  score : ℚ
  label : String
  positive_count : ℕ
  negative_count : ℕ
  neutral_count : ℕ
deriving DecidableEq, Repr

/-- The fields of `fetch_index_data`'s result that `generate_prediction`
reads (an external fetch, hence a parameter). -/
structure FetchedIndexData where
  index_id : String
  name : String
  current_price : ℚ
  data : List TimeSeriesPoint
deriving DecidableEq, Repr

/-- One per-day entry of the forecast (`predictions.append({...})`). -/
structure DayPrediction where
  date : String
  predicted_close : ℚ
  confidence : ℚ
  sentiment_influence : ℚ
deriving DecidableEq, Repr

/-- The `factors` breakdown of the returned forecast. -/
structure Factors where
  technical_trend : ℚ
  technical_momentum : ℚ
  technical_rsi : ℚ
  technical_volatility : ℚ
  technical_sma_5 : ℚ
  technical_sma_20 : ℚ
  sentiment_score : ℚ
  sentiment_label : String
  positive_articles : ℕ
  negative_articles : ℕ
  neutral_articles : ℕ
  combined_signal : ℚ
deriving DecidableEq, Repr

/-- The forecast dict returned by `generate_prediction`. -/
structure PredictionResult where
  index_id : String
  name : String
  current_price : ℚ
  prediction_days : ℕ
  overall_sentiment : String
  sentiment_score : ℚ
  predicted_direction : String
  predicted_change_percent : ℚ
  confidence : ℚ
  historical_data : List TimeSeriesPoint
  predictions : List DayPrediction
  factors : Factors
deriving DecidableEq, Repr

/-- Python dict subscription `d[k]`: raises `KeyError` on a missing key. -/
def dictGet (d : List (String × ℚ)) (k : String) : Except String ℚ :=
  match d.lookup k with
  | some v => Except.ok v
  | none => Except.error ("KeyError: " ++ k)

/-- The `for i in range(1, days + 1)` loop of `generate_prediction`:
`remaining` counts the iterations still to run, `i` is the 1-based day
index, `cumulative` the running `cumulative_change`.  `noiseDraw i` models
`np.random.normal(0, max_daily_change * 0.3)` on day `i`, `dateOf i` the
formatted `datetime.now() + timedelta(days=i)`. -/
def predictionLoop (current_price base_change sent_signal : ℚ)
    (noiseDraw : ℕ → ℚ) (dateOf : ℕ → String) :
    ℕ → ℕ → ℚ → List DayPrediction
  | 0, _, _ => []
  | r + 1, i, cumulative =>
    let daily_change := base_change * (9 / 10 : ℚ) ^ i
    let cumulative' := cumulative + (daily_change + noiseDraw i * 100)
    let predicted_price := current_price * (1 + cumulative' / 100)
    let day_confidence := max 0.3 (0.85 - (i : ℚ) * 0.07)
    { date := dateOf i,
      predicted_close := npRound 2 predicted_price,
      confidence := npRound 2 day_confidence,
      sentiment_influence := npRound 4 (sent_signal * 0.4) }
      :: predictionLoop current_price base_change sent_signal noiseDraw dateOf r (i + 1) cumulative'

/-- The body of `generate_prediction` after the fetch and the
`calculate_technical_indicators` call: `technicals` is the indicator dict
computed once up front, `sqrt252` the value of `np.sqrt(252)`. -/
def generate_prediction_core (technicals : List (String × ℚ))
    (noiseDraw : ℕ → ℚ) (dateOf : ℕ → String) (sqrt252 : ℚ)
    (index_data : FetchedIndexData) (sentiment : SentimentResult)
    (days : ℕ) : Except String (Option PredictionResult) :=
      let historical := index_data.data
      let current_price := index_data.current_price
      do
        let trend ← dictGet technicals "trend"
        let momentum ← dictGet technicals "momentum"
        let tech_signal := trend * 0.4 + momentum * 0.6
        let sent_signal := sentiment.score
        let combined0 := tech_signal * 0.6 + sent_signal * 0.4
        let rsi := (technicals.lookup "rsi").getD 50
        let combined_signal :=
          if rsi > 70 then combined0 * 0.7
          else if rsi < 30 then combined0 * 0.7
          else combined0
        let direction :=
          if combined_signal > 0.1 then "bullish"
          else if combined_signal < -0.1 then "bearish"
          else "neutral"
        let volatility := (technicals.lookup "volatility").getD 0.15
        let max_daily_change := volatility / sqrt252 * 2
        let base_change := combined_signal * max_daily_change * 100
        let predictions := predictionLoop current_price base_change sent_signal
          (fun i => noiseDraw i * (max_daily_change * 0.3)) dateOf days 1 0
        let final_prediction ←
          match predictions.getLast? with
          | some p => Except.ok p.predicted_close
          | none => Except.error "IndexError: list index out of range"
        let total_change_percent := (final_prediction - current_price) / current_price * 100
        let signal_strength := |combined_signal|
        let confidence := min 0.85 (0.5 + signal_strength * 0.5) * (1 - volatility * 0.5)
        let ftrend ← dictGet technicals "trend"
        let fmomentum ← dictGet technicals "momentum"
        let frsi ← dictGet technicals "rsi"
        let fsma5 ← dictGet technicals "sma_5"
        let fsma20 ← dictGet technicals "sma_20"
        Except.ok (some
          { index_id := index_data.index_id,
            name := index_data.name,
            current_price := current_price,
            prediction_days := days,
            overall_sentiment := sentiment.label,
            sentiment_score := sentiment.score,
            predicted_direction := direction,
            predicted_change_percent := npRound 2 total_change_percent,
            confidence := npRound 2 confidence,
            historical_data := historical.drop (historical.length - 30),
            predictions := predictions,
            factors :=
              { technical_trend := ftrend,
                technical_momentum := fmomentum,
                technical_rsi := frsi,
                technical_volatility := npRound 2 (volatility * 100),
                technical_sma_5 := fsma5,
                technical_sma_20 := fsma20,
                sentiment_score := sentiment.score,
                sentiment_label := sentiment.label,
                positive_articles := sentiment.positive_count,
                negative_articles := sentiment.negative_count,
                neutral_articles := sentiment.neutral_count,
                combined_signal := npRound 4 combined_signal } })

/-- `generate_prediction(index_id, days)`.  The external fetch and the
sentiment analysis are parameters (`fetched`, `sentiment`); `sqrtQ` and
`noiseDraw` model `np.sqrt` and the Gaussian noise.  `Except.error`
models an uncaught Python exception, `Except.ok none` the early
`return None`. -/
def generate_prediction (sqrtQ : ℚ → ℚ) (noiseDraw : ℕ → ℚ) (dateOf : ℕ → String)
    (fetched : Option FetchedIndexData) (sentiment : SentimentResult)
    (days : ℕ) : Except String (Option PredictionResult) :=
  match fetched with
  | none => Except.ok none
  | some index_data =>
    if index_data.data.isEmpty then Except.ok none
    else
      generate_prediction_core (calculate_technical_indicators sqrtQ index_data.data)
        noiseDraw dateOf (sqrtQ 252) index_data sentiment days

/-! ### `cache_service`: TTL validity -/

/-- The `CACHE_TTL` table (minutes). -/
def CACHE_TTL : List (String × ℚ) :=
  [("quote", 5), ("daily_data", 60), ("intraday_data", 15), ("sentiment", 30)]

/-- `CACHE_TTL.get(cache_type, 60)`. -/
def cacheTTLof (cache_type : String) : ℚ := (CACHE_TTL.lookup cache_type).getD 60

/-- `is_cache_valid(fetched_at, cache_type)`.  Timestamps are rational
minutes; `fetched_at = none` models a missing (`None`) timestamp; `now`
models `datetime.now()`, passed explicitly. -/
def is_cache_valid (now : ℚ) (fetched_at : Option ℚ) (cache_type : String) : Bool :=
  match fetched_at with
  | none => false
  | some t => decide (now < t + cacheTTLof cache_type)

/-! ### `cache_service`: index-data cache -/

/-- One row of the `cached_index_data` table.  `date` holds only the day
(`strptime("%Y-%m-%d")` always yields midnight, so only the day part of a
point's date string survives a write); `fetched_at` is in rational
minutes. -/
structure CachedIndexDataRow where
  index_id : String
  symbol : String
  date : String
  open_price : ℚ
  high_price : ℚ
  low_price : ℚ
  close_price : ℚ
  volume : ℚ
  change_percent : Option ℚ
  period : String
  interval : String
  fetched_at : ℚ
deriving DecidableEq, Repr

/-- The shared filter of both cache queries:
`index_id == index_id.upper() and period == period and interval == interval`. -/
def rowMatchesKey (index_id period interval : String) (r : CachedIndexDataRow) : Bool :=
  r.index_id == pyUpper index_id && r.period == period && r.interval == interval

/-- The intervals classified as intraday by both cache functions. -/
def intradayIntervals : List String := ["1m", "5m", "15m", "30m", "1h"]

/-- `order_by(desc(CachedIndexData.fetched_at))`. -/
def fetchedDesc (a b : CachedIndexDataRow) : Prop := b.fetched_at ≤ a.fetched_at

instance : DecidableRel fetchedDesc := fun a b =>
  inferInstanceAs (Decidable (b.fetched_at ≤ a.fetched_at))

instance : IsTotal CachedIndexDataRow fetchedDesc :=
  ⟨fun a b => le_total b.fetched_at a.fetched_at⟩

instance : IsTrans CachedIndexDataRow fetchedDesc :=
  ⟨fun _ _ _ h h2 => le_trans h2 h⟩

/-- `order_by(CachedIndexData.date)` (ascending; stored dates are day
strings, compared lexicographically as the database compares the
underlying datetimes). -/
def dateAsc (a b : CachedIndexDataRow) : Prop := strLe a.date b.date

instance : DecidableRel dateAsc := fun a b =>
  inferInstanceAs (Decidable (strLe a.date b.date = true))

theorem lexLe_total (as bs : List Char) : lexLe as bs = true ∨ lexLe bs as = true := by
  induction as generalizing bs with
  | nil => exact Or.inl rfl
  | cons a as ih =>
    cases bs with
    | nil => exact Or.inr rfl
    | cons b bs =>
      rcases lt_trichotomy a b with h | h | h
      · exact Or.inl (by simp [lexLe, h])
      · subst h
        rcases ih bs with h2 | h2
        · exact Or.inl (by simp [lexLe, h2])
        · exact Or.inr (by simp [lexLe, h2])
      · exact Or.inr (by simp [lexLe, h])

theorem lexLe_trans {as bs cs : List Char} (h1 : lexLe as bs = true)
    (h2 : lexLe bs cs = true) : lexLe as cs = true := by
  induction as generalizing bs cs with
  | nil => rfl
  | cons a as ih =>
    cases bs with
    | nil => simp [lexLe] at h1
    | cons b bs =>
      cases cs with
      | nil => simp [lexLe] at h2
      | cons c cs =>
        simp only [lexLe] at h1 h2 ⊢
        rcases lt_trichotomy a b with hab | hab | hab
        · rcases lt_trichotomy b c with hbc | hbc | hbc
          · simp [lt_trans hab hbc]
          · subst hbc; simp [hab]
          · rw [if_neg (lt_asymm hbc), if_pos hbc] at h2; exact absurd h2 (by simp)
        · subst hab
          rcases lt_trichotomy a c with hbc | hbc | hbc
          · simp [hbc]
          · subst hbc
            rw [if_neg (lt_irrefl a), if_neg (lt_irrefl a)] at h1 h2 ⊢
            exact ih h1 h2
          · rw [if_neg (lt_asymm hbc), if_pos hbc] at h2; exact absurd h2 (by simp)
        · rw [if_neg (lt_asymm hab), if_pos hab] at h1; exact absurd h1 (by simp)

instance : IsTotal CachedIndexDataRow dateAsc := ⟨fun a b => lexLe_total a.date.data b.date.data⟩

instance : IsTrans CachedIndexDataRow dateAsc := ⟨fun _ _ _ h h2 => lexLe_trans h h2⟩

/-- The dict `get_cached_index_data` builds from a stored row: intraday
intervals format the date as `"%Y-%m-%d %H:%M:%S"` (the stored midnight
time prints as `" 00:00:00"`), daily intervals as `"%Y-%m-%d"`. -/
def toReadPoint (interval : String) (point : CachedIndexDataRow) : TimeSeriesPoint :=
  { date := if interval ∈ intradayIntervals then point.date ++ " 00:00:00" else point.date,
    openP := point.open_price,
    highP := point.high_price,
    lowP := point.low_price,
    closeP := point.close_price,
    volume := point.volume,
    change_percent := point.change_percent }

/-- `get_cached_index_data(db, index_id, period, interval)`; `now` models
`datetime.now()` inside `is_cache_valid`. -/
def get_cached_index_data (db : List CachedIndexDataRow)
    (index_id period interval : String) (now : ℚ) : Option (List TimeSeriesPoint) :=
  let sorted := (db.filter (rowMatchesKey index_id period interval)).insertionSort fetchedDesc
  match sorted.head? with
  | none => none
  | some latest =>
    let cache_type := if interval ∈ intradayIntervals then "intraday_data" else "daily_data"
    if is_cache_valid now (some latest.fetched_at) cache_type then
      let data_points := (db.filter (fun r =>
        rowMatchesKey index_id period interval r && r.fetched_at == latest.fetched_at)).insertionSort dateAsc
      some (data_points.map (toReadPoint interval))
    else none

/-- The batch-pruning loop of `cache_index_data`: walks the entries sorted
by descending `fetched_at`, accumulating the distinct batch keys seen so
far, and returns the entries deleted (those reached once more than 3
distinct batches have been seen). -/
def pruneLoop : List CachedIndexDataRow → List ℚ → List CachedIndexDataRow
  | [], _ => []
  | e :: rest, seen =>
    let seen' := if e.fetched_at ∈ seen then seen else seen ++ [e.fetched_at]
    if 3 < seen'.length then e :: pruneLoop rest seen'
    else pruneLoop rest seen'

/-- `datetime.strptime(point["date"].split()[0], "%Y-%m-%d")`: only the day
part of the point's date string is stored (parsing "%Y-%m-%d" yields
midnight). -/
def storedDay (s : String) : String := ⟨splitFirstToken s.data⟩

/-- The `CachedIndexData(...)` constructor call inside `cache_index_data`'s
insert loop. -/
def toCachedRow (index_id symbol period interval : String) (fetched_at : ℚ)
    (point : TimeSeriesPoint) : CachedIndexDataRow :=
  { index_id := pyUpper index_id,
    symbol := symbol,
    date := storedDay point.date,
    open_price := point.openP,
    high_price := point.highP,
    low_price := point.lowP,
    close_price := point.closeP,
    volume := point.volume,
    change_percent := point.change_percent,
    period := period,
    interval := interval,
    fetched_at := fetched_at }

/-- `cache_index_data(db, index_id, symbol, period, interval, data)`;
`fetched_at` models the `datetime.now()` taken at the start of the call. -/
def cache_index_data (db : List CachedIndexDataRow)
    (index_id symbol period interval : String)
    (data : List TimeSeriesPoint) (fetched_at : ℚ) : List CachedIndexDataRow :=
  let old_entries := (db.filter (rowMatchesKey index_id period interval)).insertionSort fetchedDesc
  let deleted := pruneLoop old_entries []
  let db1 := db.diff deleted
  db1 ++ data.map (toCachedRow index_id symbol period interval fetched_at)

/-- The distinct generations (distinct `fetched_at` values) cached for a
key, in first-seen order. -/
def distinctGenerations (db : List CachedIndexDataRow)
    (index_id period interval : String) : List ℚ :=
  ((db.filter (rowMatchesKey index_id period interval)).map (·.fetched_at)).dedup

/-- A fixed single data point used by the successive-write trace. -/
def tracePoint : TimeSeriesPoint :=
  { date := "2024-01-01", openP := 1, highP := 1, lowP := 1, closeP := 1,
    volume := 1, change_percent := none }

/-- `n` successive `cache_index_data` calls with one fixed key, write `k`
happening at time `k` (strictly increasing timestamps), starting from an
empty table. -/
def writeTrace : ℕ → List CachedIndexDataRow
  | 0 => []
  | n + 1 => cache_index_data (writeTrace n) "IDX" "SYM" "1mo" "1d" [tracePoint] n

/-! ### `cache_service`: prediction ledger -/

/-- One row of the `prediction_logs` table (the fields
`evaluate_past_predictions` / `get_prediction_accuracy` touch).  Dates are
ISO day strings (`strftime("%Y-%m-%d")` granularity, at which the ledger
compares and matches them); lexicographic order on them coincides with
chronological order. -/
structure PredictionEntry where
  index_id : String
  target_date : String
  current_price : Option ℚ
  predicted_price : Option ℚ
  predicted_direction : Option String
  confidence : Option ℚ
  actual_price : Option ℚ
  actual_change_percent : Option ℚ
  actual_direction : Option String
  was_correct : Option Bool
  accuracy_score : Option ℚ
  evaluated_at : Option String
deriving DecidableEq, Repr

/-- Python truthiness of an optional float (`if pred.current_price:`):
false for `None` and for `0`. -/
def truthyQ : Option ℚ → Bool
  | none => false
  | some x => x != 0

/-- The body of the `for pred in pending` loop of
`evaluate_past_predictions`, for an entry whose `target_date` has the
matching actual price `actual`; `now` models `datetime.now()`. -/
def evaluateEntry (actual : ℚ) (now : String) (p : PredictionEntry) : PredictionEntry :=
  let p1 := { p with actual_price := some actual }
  let p2 :=
    if truthyQ p.current_price then
      let cp := p.current_price.getD 0
      let actual_change := (actual - cp) / cp * 100
      let dir :=
        if actual_change > 0.5 then "bullish"
        else if actual_change < -0.5 then "bearish"
        else "neutral"
      let p2a := { p1 with
        actual_change_percent := some actual_change,
        actual_direction := some dir,
        was_correct := some (p.predicted_direction == some dir) }
      if truthyQ p.predicted_price then
        let pp := p.predicted_price.getD 0
        let error_percent := |pp - actual| / actual * 100
        { p2a with accuracy_score := some (max 0 (1 - error_percent / 10)) }
      else p2a
    else p1
  { p2 with evaluated_at := some now }

/-- The effect of one `evaluate_past_predictions` call on a single row: the
`pending` query filter (`index_id` match, `actual_price IS NULL`,
`target_date <= now`) followed by the loop body; rows outside the filter,
and pending rows whose `target_date` has no actual price, are left
untouched. -/
def evaluateStep (index_id : String) (actual_prices : List (String × ℚ))
    (now : String) (p : PredictionEntry) : PredictionEntry :=
  if p.index_id == pyUpper index_id && p.actual_price.isNone &&
      strLe p.target_date now then
    match actual_prices.lookup p.target_date with
    | some actual => evaluateEntry actual now p
    | none => p
  else p

/-- `evaluate_past_predictions(db, index_id, actual_prices)`; `now` models
the `datetime.now()` of the call. -/
def evaluate_past_predictions (db : List PredictionEntry) (index_id : String)
    (actual_prices : List (String × ℚ)) (now : String) : List PredictionEntry :=
  db.map (evaluateStep index_id actual_prices now)

/-- Result of `get_prediction_accuracy`: either the no-data dict
`{"total_predictions": 0, "accuracy": None}` or the full statistics dict. -/
inductive AccuracyResult
  | noData
  | stats (total_predictions correct_predictions : ℕ)
      (direction_accuracy price_accuracy : ℚ) (last_evaluated : Option String)
deriving DecidableEq, Repr

/-- `get_prediction_accuracy(db, index_id)`.  `last_evaluated` is the
maximum `evaluated_at` among evaluated entries carrying one (`none` when
there is no such value, where Python's bare `max` would raise). -/
def get_prediction_accuracy (db : List PredictionEntry)
    (index_id : String) : AccuracyResult :=
  let evaluated := db.filter (fun p =>
    p.index_id == pyUpper index_id && p.was_correct.isSome)
  if evaluated.isEmpty then AccuracyResult.noData
  else
    let correct := (evaluated.filter (fun p => p.was_correct == some true)).length
    let avg_accuracy := (evaluated.map (fun p => p.accuracy_score.getD 0)).sum / evaluated.length
    AccuracyResult.stats evaluated.length correct
      (npRound 2 ((correct : ℚ) / evaluated.length * 100))
      (npRound 2 (avg_accuracy * 100))
      (pyMaxStr (evaluated.filterMap (·.evaluated_at)))

/-! ## Helper lemmas -/

theorem mean_nonneg (l : List ℚ) (h : ∀ x ∈ l, 0 ≤ x) : 0 ≤ mean l :=
  div_nonneg (List.sum_nonneg h) (by positivity)

theorem pySliceLast_subset (n : ℕ) (l : List ℚ) : ∀ x ∈ pySliceLast n l, x ∈ l := by
  unfold pySliceLast
  split
  · exact fun x hx => hx
  · exact fun x hx => List.drop_subset _ _ hx

/-! ## C6 -/

/-- C6: for every price sequence with fewer than 20 points,
`calculate_technical_indicators` returns exactly the degenerate dict
`{trend: 0, momentum: 0, volatility: 0}` (and no other keys). -/
theorem c6_short_history_degenerate (sqrtQ : ℚ → ℚ)
    (data : List TimeSeriesPoint) (h : data.length < 20) :
    calculate_technical_indicators sqrtQ data =
      [("trend", 0), ("momentum", 0), ("volatility", 0)] := by
  simp only [calculate_technical_indicators, if_pos h]

/-- C6 witness: a concrete one-point history takes the degenerate branch. -/
theorem c6_short_history_degenerate_witness :
    [tracePoint].length < 20 ∧
      calculate_technical_indicators (fun q => q) [tracePoint] =
        [("trend", 0), ("momentum", 0), ("volatility", 0)] :=
  ⟨by decide, c6_short_history_degenerate (fun q => q) [tracePoint] (by decide)⟩

/-! ## C7 -/

/-- C7: `calculate_rsi` always returns a value in `[0, 100]`; it returns
exactly 50 when fewer than `period + 1` closes are supplied, and exactly
100 when (enough closes being supplied) the trailing-window average loss
is 0.  (`1 ≤ period` restricts to the regime where the model is faithful
to the NumPy slicing; the only call site uses `period = 14`.) -/
theorem c7_rsi_range (closes : List ℚ) (period : ℕ) (hp : 1 ≤ period) :
    (0 ≤ calculate_rsi closes period ∧ calculate_rsi closes period ≤ 100)
    ∧ (closes.length < period + 1 → calculate_rsi closes period = 50)
    ∧ (period + 1 ≤ closes.length →
        mean (pySliceLast period
          ((npDiff closes).map (fun d => if d < 0 then -d else 0))) = 0 →
        calculate_rsi closes period = 100) := by
  clear hp
  refine ⟨?_, ?_, ?_⟩
  · simp only [calculate_rsi]
    split
    · norm_num
    · split
      · norm_num
      · rename_i hl hloss
        set G := mean (pySliceLast period
          ((npDiff closes).map (fun d => if d > 0 then d else 0))) with hGdef
        set L := mean (pySliceLast period
          ((npDiff closes).map (fun d => if d < 0 then -d else 0))) with hLdef
        have hG : 0 ≤ G := by
          refine mean_nonneg _ (fun x hx => ?_)
          obtain ⟨d, _, rfl⟩ := List.mem_map.1 (pySliceLast_subset _ _ _ hx)
          split <;> simp_all <;> linarith
        have hL : 0 ≤ L := by
          refine mean_nonneg _ (fun x hx => ?_)
          obtain ⟨d, _, rfl⟩ := List.mem_map.1 (pySliceLast_subset _ _ _ hx)
          split <;> simp_all <;> linarith
        have hLpos : 0 < L := lt_of_le_of_ne hL (Ne.symm hloss)
        have hrs : 0 ≤ G / L := div_nonneg hG hL
        have h1 : (0 : ℚ) < 1 + G / L := by linarith
        have hub : 100 / (1 + G / L) ≤ 100 := div_le_self (by norm_num) (by linarith)
        have hlb : 0 < 100 / (1 + G / L) := div_pos (by norm_num) h1
        constructor <;> linarith
  · intro h
    simp only [calculate_rsi, if_pos h]
  · intro h hloss
    rw [calculate_rsi, if_neg (by omega), if_pos hloss]

/-- C7 witness: 3 closes with period 14 give the neutral 50; 15 strictly
rising closes have zero average loss and give exactly 100 (both values in
`[0, 100]`). -/
theorem c7_rsi_range_witness :
    calculate_rsi [1, 2, 4] 14 = 50
    ∧ calculate_rsi [1, 2, 3, 4, 5, 6, 7, 8, 9, 10, 11, 12, 13, 14, 15] 14 = 100
    ∧ 0 ≤ calculate_rsi [1, 2, 4] 14 :=
  ⟨(c7_rsi_range [1, 2, 4] 14 (by norm_num)).2.1 (by norm_num),
   (c7_rsi_range [1, 2, 3, 4, 5, 6, 7, 8, 9, 10, 11, 12, 13, 14, 15] 14
      (by norm_num)).2.2 (by norm_num)
     (by norm_num [npDiff, pySliceLast, mean, List.zipWith]),
   (c7_rsi_range [1, 2, 4] 14 (by norm_num)).1.1⟩

/-! ## C8 -/

/-- C8: `is_cache_valid` is `now < fetched_at + ttl` with the TTL table
quote=5, daily=60, intraday=15, sentiment=30 (minutes); a missing
timestamp is never fresh; freshness is monotone in the evaluation time,
and stops holding exactly at `fetched_at + ttl`. -/
theorem c8_is_cache_valid_spec (T T2 t : ℚ) (c : String) :
    is_cache_valid T none c = false
    ∧ (is_cache_valid T (some t) c = true ↔ T < t + cacheTTLof c)
    ∧ cacheTTLof "quote" = 5 ∧ cacheTTLof "daily_data" = 60
    ∧ cacheTTLof "intraday_data" = 15 ∧ cacheTTLof "sentiment" = 30
    ∧ (T2 < T → is_cache_valid T (some t) c = true →
        is_cache_valid T2 (some t) c = true)
    ∧ is_cache_valid (t + cacheTTLof c) (some t) c = false := by
  refine ⟨rfl, by simp [is_cache_valid], rfl, rfl, rfl, rfl, ?_, by simp [is_cache_valid]⟩
  intro hlt h
  simp only [is_cache_valid, decide_eq_true_eq] at h ⊢
  linarith

/-- C8 witness: a quote fetched at time 0 is fresh at time 2 (applying
monotonicity from freshness at time 3, inside the 5-minute TTL). -/
theorem c8_is_cache_valid_spec_witness :
    is_cache_valid 2 (some 0) "quote" = true :=
  (c8_is_cache_valid_spec 3 2 0 "quote").2.2.2.2.2.2.1 (by norm_num)
    ((c8_is_cache_valid_spec 3 2 0 "quote").2.1.mpr
      (by norm_num [cacheTTLof, CACHE_TTL]))

/-! ## C4 -/

theorem evaluateEntry_actual_price (a : ℚ) (now : String) (p : PredictionEntry) :
    (evaluateEntry a now p).actual_price = some a := by
  unfold evaluateEntry
  by_cases h1 : truthyQ p.current_price <;> by_cases h2 : truthyQ p.predicted_price <;>
    simp [h1, h2]

theorem evaluateStep_idem (index_id : String) (m : List (String × ℚ))
    (now : String) (p : PredictionEntry) :
    evaluateStep index_id m now (evaluateStep index_id m now p)
      = evaluateStep index_id m now p := by
  by_cases h : (p.index_id == pyUpper index_id && p.actual_price.isNone &&
      strLe p.target_date now) = true
  · cases hm : m.lookup p.target_date with
    | none => simp only [evaluateStep, h, if_true, hm]
    | some a =>
      have ha : (evaluateEntry a now p).actual_price.isNone = false := by
        rw [evaluateEntry_actual_price]; rfl
      simp only [evaluateStep, h, if_true, hm, ha, Bool.and_false, Bool.false_and,
        Bool.false_eq_true, if_false]
  · have hq : evaluateStep index_id m now p = p := by
      unfold evaluateStep; rw [if_neg h]
    rw [hq, hq]

/-- C4: `evaluate_past_predictions` is idempotent: a second call with the
same index, the same actual-price mapping and the same evaluation time
leaves every ledger entry exactly as the first call did (it only ever
targets rows whose `actual_price` is unset). -/
theorem c4_evaluate_idempotent (db : List PredictionEntry) (index_id : String)
    (m : List (String × ℚ)) (now : String) :
    evaluate_past_predictions (evaluate_past_predictions db index_id m now)
        index_id m now
      = evaluate_past_predictions db index_id m now := by
  unfold evaluate_past_predictions
  induction db with
  | nil => rfl
  | cons p rest ih =>
    simp only [List.map_cons, ih, List.cons.injEq, and_true]
    exact evaluateStep_idem index_id m now p

/-! ## C5 -/

/-- A logged, still-pending ledger entry whose `predicted_price` is 0. -/
def c5Entry : PredictionEntry :=
  { index_id := "IDX", target_date := "2024-01-02",
    current_price := some 100, predicted_price := some 0,
    predicted_direction := some "bullish", confidence := some 1,
    actual_price := none, actual_change_percent := none,
    actual_direction := none, was_correct := none,
    accuracy_score := none, evaluated_at := none }

/-- C5 counterexample: for a pending entry with `current_price = 100` but
`predicted_price = 0`, evaluation against actual price 103 leaves
`accuracy_score` unset, while the claimed formula
`max(0, 1 - (|predicted_price - actual| / actual * 100) / 10)` has a value
(0) — the code only sets `accuracy_score` when `predicted_price` is
truthy. -/
theorem c5_counterexample :
    ((evaluate_past_predictions [c5Entry] "IDX" [("2024-01-02", 103)]
        "2024-01-10").headD c5Entry).accuracy_score
      ≠ some (max 0 (1 - (|(0 : ℚ) - 103| / 103 * 100) / 10)) := by
  have h : ((evaluate_past_predictions [c5Entry] "IDX" [("2024-01-02", 103)]
      "2024-01-10").headD c5Entry).accuracy_score = none := by decide
  rw [h]
  exact (Option.some_ne_none _).symm

/-- C5 (amended): when `evaluate_past_predictions` evaluates a pending
entry with non-zero `current_price` and non-zero, set `predicted_price`
against actual price `actual`, it sets
`actual_change_percent = (actual - current_price) / current_price * 100`,
`actual_direction` = bullish / bearish / neutral by the ±0.5 thresholds,
`was_correct = (predicted_direction == actual_direction)`, and
`accuracy_score = max(0, 1 - (|predicted_price - actual| / actual * 100) / 10)`;
when `predicted_price` is unset or 0, `accuracy_score` alone stays unset. -/
theorem c5_amended_evaluation_formulas (p : PredictionEntry)
    (index_id now : String) (m : List (String × ℚ)) (actual cp pp : ℚ)
    (hidx : p.index_id = pyUpper index_id)
    (hpend : p.actual_price = none)
    (hdue : strLe p.target_date now = true)
    (hlook : m.lookup p.target_date = some actual)
    (hcp : p.current_price = some cp) (hcp0 : cp ≠ 0)
    (hpp : p.predicted_price = some pp) (hpp0 : pp ≠ 0) :
    ((evaluate_past_predictions [p] index_id m now).headD p).actual_change_percent
        = some ((actual - cp) / cp * 100)
    ∧ ((evaluate_past_predictions [p] index_id m now).headD p).actual_direction
        = some (if (actual - cp) / cp * 100 > 0.5 then "bullish"
            else if (actual - cp) / cp * 100 < -0.5 then "bearish" else "neutral")
    ∧ ((evaluate_past_predictions [p] index_id m now).headD p).was_correct
        = some (p.predicted_direction ==
            some (if (actual - cp) / cp * 100 > 0.5 then "bullish"
              else if (actual - cp) / cp * 100 < -0.5 then "bearish" else "neutral"))
    ∧ ((evaluate_past_predictions [p] index_id m now).headD p).accuracy_score
        = some (max 0 (1 - (|pp - actual| / actual * 100) / 10)) := by
  have hstep : evaluate_past_predictions [p] index_id m now
      = [evaluateEntry actual now p] := by
    simp only [evaluate_past_predictions, List.map_cons, List.map_nil, evaluateStep,
      hidx, hpend, hdue, hlook, Option.isNone_none, Bool.and_true, Bool.and_self,
      beq_self_eq_true, if_true]
  rw [hstep]
  simp only [List.headD_cons]
  unfold evaluateEntry
  simp only [hcp, hpp, truthyQ, Option.getD_some, bne_iff_ne, ne_eq, hcp0,
    not_false_eq_true, if_true, hpp0]
  exact ⟨trivial, trivial, trivial, trivial⟩

/-- C5 witness: the spec scenario `current_price=100`, `predicted_price=105`,
actual `103` gives `actual_change_percent = 3`, `actual_direction` bullish,
`was_correct = true`, and `accuracy_score = 83/103 (≈ 0.806)`. -/
theorem c5_amended_evaluation_formulas_witness :
    ((evaluate_past_predictions
        [{ c5Entry with predicted_price := some 105 }] "IDX"
        [("2024-01-02", 103)] "2024-01-10").headD
          { c5Entry with predicted_price := some 105 }).actual_change_percent
      = some 3
    ∧ ((evaluate_past_predictions
        [{ c5Entry with predicted_price := some 105 }] "IDX"
        [("2024-01-02", 103)] "2024-01-10").headD
          { c5Entry with predicted_price := some 105 }).actual_direction
      = some "bullish"
    ∧ ((evaluate_past_predictions
        [{ c5Entry with predicted_price := some 105 }] "IDX"
        [("2024-01-02", 103)] "2024-01-10").headD
          { c5Entry with predicted_price := some 105 }).was_correct
      = some true
    ∧ ((evaluate_past_predictions
        [{ c5Entry with predicted_price := some 105 }] "IDX"
        [("2024-01-02", 103)] "2024-01-10").headD
          { c5Entry with predicted_price := some 105 }).accuracy_score
      = some (83 / 103) := by
  have h := c5_amended_evaluation_formulas
    { c5Entry with predicted_price := some 105 } "IDX" "2024-01-10"
    [("2024-01-02", 103)] 103 100 105
    (by decide) rfl (by decide) rfl rfl (by norm_num) rfl (by norm_num)
  refine ⟨?_, ?_, ?_, ?_⟩
  · rw [h.1]; norm_num
  · rw [h.2.1]; norm_num
  · rw [h.2.2.1]
    have : ((103 : ℚ) - 100) / 100 * 100 > 0.5 := by norm_num
    rw [if_pos this]
    rfl
  · rw [h.2.2.2]; norm_num

/-! ## C10 -/

theorem evaluateEntry_not_truthy (a : ℚ) (now : String) (p : PredictionEntry)
    (h : truthyQ p.current_price = false) :
    evaluateEntry a now p
      = { p with actual_price := some a, evaluated_at := some now } := by
  unfold evaluateEntry
  simp [h]

/-- C10: a pending entry whose `target_date` has a matching actual price
but whose `current_price` is unset or 0 gets `actual_price` and
`evaluated_at` set while `actual_direction`, `was_correct` and
`accuracy_score` stay unset; thereafter no `evaluate_past_predictions`
call touches it again (it is no longer pending), and
`get_prediction_accuracy` never counts it (it requires `was_correct`
set), so the entry permanently drops out of accuracy tracking. -/
theorem c10_priceless_entry_drops_out (p : PredictionEntry)
    (index_id now : String) (m : List (String × ℚ)) (actual : ℚ)
    (hidx : p.index_id = pyUpper index_id)
    (hpend : p.actual_price = none)
    (hdue : strLe p.target_date now = true)
    (hlook : m.lookup p.target_date = some actual)
    (hcp : truthyQ p.current_price = false)
    (hdir : p.actual_direction = none) (hwc : p.was_correct = none)
    (hacc : p.accuracy_score = none) :
    ((evaluate_past_predictions [p] index_id m now).headD p).actual_price = some actual
    ∧ ((evaluate_past_predictions [p] index_id m now).headD p).evaluated_at = some now
    ∧ ((evaluate_past_predictions [p] index_id m now).headD p).actual_direction = none
    ∧ ((evaluate_past_predictions [p] index_id m now).headD p).was_correct = none
    ∧ ((evaluate_past_predictions [p] index_id m now).headD p).accuracy_score = none
    ∧ (∀ (idx2 now2 : String) (m2 : List (String × ℚ)),
        evaluate_past_predictions
            [(evaluate_past_predictions [p] index_id m now).headD p] idx2 m2 now2
          = [(evaluate_past_predictions [p] index_id m now).headD p])
    ∧ (∀ (db : List PredictionEntry) (idx3 : String),
        get_prediction_accuracy
            (db ++ [(evaluate_past_predictions [p] index_id m now).headD p]) idx3
          = get_prediction_accuracy db idx3) := by
  have hcond : (p.index_id == pyUpper index_id && p.actual_price.isNone &&
      strLe p.target_date now) = true := by
    rw [hidx, hpend, hdue]; simp
  have hstep : evaluate_past_predictions [p] index_id m now
      = [{ p with actual_price := some actual, evaluated_at := some now }] := by
    simp only [evaluate_past_predictions, List.map_cons, List.map_nil, evaluateStep,
      hcond, if_true, hlook]
    rw [evaluateEntry_not_truthy _ _ _ hcp]
  rw [hstep]
  simp only [List.headD_cons]
  refine ⟨by simp, by simp, by simp [hdir], by simp [hwc], by simp [hacc], ?_, ?_⟩
  · intro idx2 now2 m2
    simp [evaluate_past_predictions, evaluateStep]
  · intro db idx3
    unfold get_prediction_accuracy
    rw [List.filter_append]
    have hq : (List.filter (fun q =>
        q.index_id == pyUpper idx3 && q.was_correct.isSome)
        [{ p with actual_price := some actual, evaluated_at := some now }]) = [] := by
      simp [List.filter, hwc]
    rw [hq, List.append_nil]

/-- C10 witness: a concrete pending entry with `current_price = 0` at its
target date: `actual_price`/`evaluated_at` get set, `was_correct` stays
unset, a later evaluation call leaves it unchanged, and the accuracy
statistics over a ledger holding only it see no evaluated entries. -/
theorem c10_priceless_entry_drops_out_witness :
    ((evaluate_past_predictions [{ c5Entry with current_price := some 0 }] "IDX"
        [("2024-01-02", 103)] "2024-01-10").headD
          { c5Entry with current_price := some 0 }).actual_price = some 103
    ∧ ((evaluate_past_predictions [{ c5Entry with current_price := some 0 }] "IDX"
        [("2024-01-02", 103)] "2024-01-10").headD
          { c5Entry with current_price := some 0 }).was_correct = none
    ∧ evaluate_past_predictions
        [((evaluate_past_predictions [{ c5Entry with current_price := some 0 }] "IDX"
            [("2024-01-02", 103)] "2024-01-10").headD
              { c5Entry with current_price := some 0 })] "IDX"
        [("2024-01-02", 104)] "2024-02-01"
      = [((evaluate_past_predictions [{ c5Entry with current_price := some 0 }] "IDX"
            [("2024-01-02", 103)] "2024-01-10").headD
              { c5Entry with current_price := some 0 })]
    ∧ get_prediction_accuracy
        ([] ++ [((evaluate_past_predictions [{ c5Entry with current_price := some 0 }]
            "IDX" [("2024-01-02", 103)] "2024-01-10").headD
              { c5Entry with current_price := some 0 })]) "IDX"
      = get_prediction_accuracy [] "IDX" := by
  have h := c10_priceless_entry_drops_out
    { c5Entry with current_price := some 0 } "IDX" "2024-01-10"
    [("2024-01-02", 103)] 103
    (by decide) rfl (by decide) rfl (by decide) rfl rfl rfl
  exact ⟨h.1, h.2.2.2.1, h.2.2.2.2.2.1 "IDX" "2024-02-01" [("2024-01-02", 104)],
    h.2.2.2.2.2.2 [] "IDX"⟩

/-! ## C2 -/

theorem cti_short (sqrtQ : ℚ → ℚ) (data : List TimeSeriesPoint)
    (h : data.length < 20) :
    calculate_technical_indicators sqrtQ data =
      [("trend", 0), ("momentum", 0), ("volatility", 0)] := by
  simp only [calculate_technical_indicators, if_pos h]

theorem predictionLoop_length (cp bc ss : ℚ) (nf : ℕ → ℚ) (df : ℕ → String) :
    ∀ (r i : ℕ) (cum : ℚ), (predictionLoop cp bc ss nf df r i cum).length = r := by
  intro r
  induction r with
  | zero => intro i cum; rfl
  | succ n ih =>
    intro i cum
    simp only [predictionLoop, List.length_cons, ih]

theorem gp_core_short_keyerror (noiseDraw : ℕ → ℚ) (dateOf : ℕ → String)
    (sqrt252 : ℚ) (fd : FetchedIndexData) (sentiment : SentimentResult)
    (days : ℕ) (hdays : days ≠ 0) :
    generate_prediction_core [("trend", 0), ("momentum", 0), ("volatility", 0)]
        noiseDraw dateOf sqrt252 fd sentiment days
      = Except.error "KeyError: rsi" := by
  obtain ⟨m, rfl⟩ := Nat.exists_eq_succ_of_ne_zero hdays
  rfl

/-- C2: for every index whose available price history is non-empty but has
fewer than 20 points, `generate_prediction` does not return a forecast: it
raises `KeyError: 'rsi'` while building the `factors` breakdown (the
degenerate indicator dict has no `rsi` key), for every horizon of at
least one day. -/
theorem c2_short_history_keyerror (sqrtQ : ℚ → ℚ) (noiseDraw : ℕ → ℚ)
    (dateOf : ℕ → String) (fd : FetchedIndexData) (sentiment : SentimentResult)
    (days : ℕ) (hne : fd.data ≠ []) (h20 : fd.data.length < 20) (hdays : days ≠ 0) :
    generate_prediction sqrtQ noiseDraw dateOf (some fd) sentiment days
      = Except.error "KeyError: rsi" := by
  have hemp : fd.data.isEmpty = false := by
    simpa [List.isEmpty_iff] using hne
  simp only [generate_prediction, hemp, Bool.false_eq_true, if_false,
    cti_short sqrtQ _ h20]
  exact gp_core_short_keyerror noiseDraw dateOf (sqrtQ 252) fd sentiment days hdays

/-- C2 witness: a one-point history with a 7-day horizon raises the
`KeyError`. -/
theorem c2_short_history_keyerror_witness :
    generate_prediction (fun q => q) (fun _ => 0) (fun _ => "2024-01-02")
      (some { index_id := "IDX", name := "Idx", current_price := 100,
              data := [tracePoint] })
      { score := 0, label := "neutral", positive_count := 0,
        negative_count := 0, neutral_count := 0 } 7
      = Except.error "KeyError: rsi" :=
  c2_short_history_keyerror (fun q => q) (fun _ => 0) (fun _ => "2024-01-02")
    _ _ 7 (by decide) (by decide) (by decide)

/-! ## C9 -/

theorem npRound_confidence (i : ℕ) :
    npRound 2 (max 0.3 (0.85 - (i : ℚ) * 0.07)) = max 0.3 (0.85 - (i : ℚ) * 0.07) := by
  have hmul : (max 0.3 (0.85 - (i : ℚ) * 0.07)) * 10 ^ 2
      = ((max 30 (85 - 7 * (i : ℤ)) : ℤ) : ℚ) := by
    rw [max_mul_of_nonneg _ _ (by norm_num : (0 : ℚ) ≤ 10 ^ 2)]
    push_cast
    congr 1 <;> ring
  unfold npRound
  rw [hmul, round_intCast, div_eq_iff (by norm_num : ((10 : ℚ) ^ 2) ≠ 0)]
  exact hmul.symm

theorem predictionLoop_map_confidence (cp bc ss : ℚ) (nf : ℕ → ℚ) (df : ℕ → String) :
    ∀ (r i : ℕ) (cum : ℚ), (predictionLoop cp bc ss nf df r i cum).map (·.confidence)
      = (List.range r).map
          (fun j => npRound 2 (max 0.3 (0.85 - ((i + j : ℕ) : ℚ) * 0.07))) := by
  intro r
  induction r with
  | zero => intro i cum; rfl
  | succ n ih =>
    intro i cum
    rw [List.range_succ_eq_map]
    simp only [predictionLoop, List.map_cons, List.map_map, ih (i + 1)]
    congr 1
    apply List.map_congr_left
    intro j hj
    simp only [Function.comp_apply]
    refine congrArg (npRound 2) ?_
    congr 1
    push_cast
    ring

theorem gp_core_ok_predictions (tech : List (String × ℚ)) (noiseDraw : ℕ → ℚ)
    (dateOf : ℕ → String) (sqrt252 : ℚ) (fd : FetchedIndexData)
    (sentiment : SentimentResult) (days : ℕ) (p : PredictionResult)
    (h : generate_prediction_core tech noiseDraw dateOf sqrt252 fd sentiment days
      = Except.ok (some p)) :
    ∃ cp bc nf, p.predictions
      = predictionLoop cp bc sentiment.score nf dateOf days 1 0 := by
  unfold generate_prediction_core at h
  rcases hT : dictGet tech "trend" with eT | vT
  · rw [hT] at h
    exact Except.noConfusion h
  rw [hT] at h
  rcases hM : dictGet tech "momentum" with eM | vM
  · rw [hM] at h
    exact Except.noConfusion h
  rw [hM] at h
  cases days with
  | zero => exact Except.noConfusion h
  | succ m =>
    rcases hR : dictGet tech "rsi" with eR | vR
    · rw [hR] at h
      exact Except.noConfusion h
    rw [hR] at h
    rcases hS5 : dictGet tech "sma_5" with eS5 | vS5
    · rw [hS5] at h
      exact Except.noConfusion h
    rw [hS5] at h
    rcases hS20 : dictGet tech "sma_20" with eS20 | vS20
    · rw [hS20] at h
      exact Except.noConfusion h
    rw [hS20] at h
    injection h with h1
    injection h1 with h2
    have hp := congrArg PredictionResult.predictions h2
    dsimp only at hp
    exact ⟨_, _, _, hp.symm⟩

/-- C9: whenever `generate_prediction` returns a forecast, the per-day
confidence of day `i` (1-based) is exactly `max(0.3, 0.85 - i*0.07)` (the
stored 2-decimal rounding is the identity on these values); that schedule
is monotonically decreasing, floored at 0.3; and for a 7-day horizon it is
exactly `[0.78, 0.71, 0.64, 0.57, 0.50, 0.43, 0.36]`. -/
theorem c9_confidence_schedule (sqrtQ : ℚ → ℚ) (noiseDraw : ℕ → ℚ)
    (dateOf : ℕ → String) (fetched : Option FetchedIndexData)
    (sentiment : SentimentResult) (days : ℕ) :
    ((generate_prediction sqrtQ noiseDraw dateOf fetched sentiment days).map
        (Option.map (fun p => p.predictions.map (·.confidence))))
      = ((generate_prediction sqrtQ noiseDraw dateOf fetched sentiment days).map
          (Option.map (fun _ => (List.range days).map
            (fun j => max 0.3 (0.85 - ((j + 1 : ℕ) : ℚ) * 0.07)))))
    ∧ (∀ i j : ℕ, i ≤ j →
        max (0.3 : ℚ) (0.85 - (j : ℚ) * 0.07) ≤ max 0.3 (0.85 - (i : ℚ) * 0.07))
    ∧ ((List.range 7).map (fun j => max (0.3 : ℚ) (0.85 - ((j + 1 : ℕ) : ℚ) * 0.07))
        = [0.78, 0.71, 0.64, 0.57, 0.50, 0.43, 0.36]) := by
  refine ⟨?_, ?_, ?_⟩
  · cases fetched with
    | none => rfl
    | some fd =>
      have hsplit : generate_prediction sqrtQ noiseDraw dateOf (some fd) sentiment days
          = if fd.data.isEmpty = true then Except.ok none
            else generate_prediction_core
              (calculate_technical_indicators sqrtQ fd.data)
              noiseDraw dateOf (sqrtQ 252) fd sentiment days := rfl
      by_cases hemp : fd.data.isEmpty = true
      · rw [hsplit, if_pos hemp]
        rfl
      · rw [hsplit, if_neg hemp]
        rcases hx : generate_prediction_core
            (calculate_technical_indicators sqrtQ fd.data)
            noiseDraw dateOf (sqrtQ 252) fd sentiment days with e | o
        · rfl
        rcases o with _ | p
        · rfl
        obtain ⟨cp, bc, nf, hpred⟩ :=
          gp_core_ok_predictions _ _ _ _ _ _ _ _ hx
        simp only [Except.map, Option.map, hpred,
          predictionLoop_map_confidence]
        refine congrArg _ (congrArg _ (List.map_congr_left (fun j _ => ?_)))
        rw [npRound_confidence]
        have harith : 1 + j = j + 1 := by omega
        rw [harith]
  · intro i j hij
    refine max_le_max le_rfl (sub_le_sub_left ?_ _)
    have : (i : ℚ) ≤ (j : ℚ) := by exact_mod_cast hij
    nlinarith
  · have h7 : List.range 7 = [0, 1, 2, 3, 4, 5, 6] := rfl
    rw [h7]
    simp only [List.map_cons, List.map_nil]
    norm_num [max_def]

/-! ## C1 -/

/-- The row a `writeTrace` call at time `t` inserts. -/
def rowT (t : ℚ) : CachedIndexDataRow :=
  toCachedRow "IDX" "SYM" "1mo" "1d" t tracePoint

theorem writeStep (a b c d t : ℚ) (h1 : a < b) (h2 : b < c) (h3 : c < d)
    (h4 : d < t) :
    cache_index_data [rowT a, rowT b, rowT c, rowT d] "IDX" "SYM" "1mo" "1d"
      [tracePoint] t = [rowT b, rowT c, rowT d, rowT t] := by
  have hfil : ([rowT a, rowT b, rowT c, rowT d].filter
      (rowMatchesKey "IDX" "1mo" "1d")) = [rowT a, rowT b, rowT c, rowT d] := rfl
  have hsort : ([rowT a, rowT b, rowT c, rowT d].insertionSort fetchedDesc)
      = [rowT d, rowT c, rowT b, rowT a] := by
    simp [List.insertionSort, List.orderedInsert, fetchedDesc, rowT, toCachedRow,
      not_le.mpr h1, not_le.mpr h2, not_le.mpr h3,
      not_le.mpr (h1.trans h2), not_le.mpr (h2.trans h3),
      not_le.mpr ((h1.trans h2).trans h3)]
  have hprune : pruneLoop [rowT d, rowT c, rowT b, rowT a] [] = [rowT a] := by
    simp [pruneLoop, rowT, toCachedRow, h1.ne, h2.ne, h3.ne,
      (h1.trans h2).ne, (h2.trans h3).ne, ((h1.trans h2).trans h3).ne]
  simp only [cache_index_data, hfil, hsort, hprune, List.diff_cons, List.diff_nil,
    List.erase_cons_head, List.map_cons, List.map_nil]
  rfl

theorem rowMatchesKey_rowT (x : ℚ) :
    rowMatchesKey "IDX" "1mo" "1d" (rowT x) = true := rfl

theorem rowT_fetched_at (x : ℚ) : (rowT x).fetched_at = x := rfl

theorem writeTrace_state (k : ℕ) :
    writeTrace (k + 4) = [rowT ((k : ℕ) : ℚ), rowT ((k + 1 : ℕ) : ℚ),
      rowT ((k + 2 : ℕ) : ℚ), rowT ((k + 3 : ℕ) : ℚ)] := by
  induction k with
  | zero => decide
  | succ n ih =>
    have harr : n + 1 + 4 = (n + 4) + 1 := by omega
    have hab : ((n : ℕ) : ℚ) < ((n + 1 : ℕ) : ℚ) := by exact_mod_cast Nat.lt_succ_self n
    have hbc : ((n + 1 : ℕ) : ℚ) < ((n + 2 : ℕ) : ℚ) := by
      exact_mod_cast Nat.lt_succ_self (n + 1)
    have hcd : ((n + 2 : ℕ) : ℚ) < ((n + 3 : ℕ) : ℚ) := by
      exact_mod_cast Nat.lt_succ_self (n + 2)
    have hdt : ((n + 3 : ℕ) : ℚ) < ((n + 4 : ℕ) : ℚ) := by
      exact_mod_cast Nat.lt_succ_self (n + 3)
    rw [harr, writeTrace, ih, writeStep _ _ _ _ _ hab hbc hcd hdt]

/-- C1 counterexample: after 4 successive `cache_index_data` calls with one
key (times 0, 1, 2, 3), four distinct generations remain cached for the
key, not three. -/
theorem c1_counterexample :
    (distinctGenerations (writeTrace 4) "IDX" "1mo" "1d").length = 4
    ∧ (distinctGenerations (writeTrace 4) "IDX" "1mo" "1d").length ≠ 3 := by
  decide

/-- C1 (amended): after `N > 3` successive `cache_index_data` calls with
the same key and strictly increasing fetch times (times `0 … N-1`, here
`N = k+4`), exactly 4 distinct generations remain — the 3 most recent
prior generations plus the newly written one — and the evicted generations
are always the oldest by `fetched_at` (FIFO): the surviving generations
are exactly those of the 4 most recent writes. -/
theorem c1_amended_four_generations (k : ℕ) :
    distinctGenerations (writeTrace (k + 4)) "IDX" "1mo" "1d"
      = [(k : ℚ), (k : ℚ) + 1, (k : ℚ) + 2, (k : ℚ) + 3]
    ∧ (distinctGenerations (writeTrace (k + 4)) "IDX" "1mo" "1d").length = 4 := by
  have hmain : distinctGenerations (writeTrace (k + 4)) "IDX" "1mo" "1d"
      = [(k : ℚ), (k : ℚ) + 1, (k : ℚ) + 2, (k : ℚ) + 3] := by
    rw [distinctGenerations, writeTrace_state]
    have m1 : ((k : ℕ) : ℚ) ∉ [((k + 1 : ℕ) : ℚ), ((k + 2 : ℕ) : ℚ), ((k + 3 : ℕ) : ℚ)] := by
      simp only [List.mem_cons, List.not_mem_nil, or_false, Nat.cast_inj]
      omega
    have m2 : ((k + 1 : ℕ) : ℚ) ∉ [((k + 2 : ℕ) : ℚ), ((k + 3 : ℕ) : ℚ)] := by
      simp only [List.mem_cons, List.not_mem_nil, or_false, Nat.cast_inj]
      omega
    have m3 : ((k + 2 : ℕ) : ℚ) ∉ [((k + 3 : ℕ) : ℚ)] := by
      simp only [List.mem_cons, List.not_mem_nil, or_false, Nat.cast_inj]
      omega
    simp only [List.filter, rowMatchesKey_rowT, List.map_cons, List.map_nil,
      rowT_fetched_at, List.dedup_cons_of_not_mem m1, List.dedup_cons_of_not_mem m2,
      List.dedup_cons_of_not_mem m3,
      List.dedup_cons_of_not_mem (List.not_mem_nil ((k + 3 : ℕ) : ℚ)),
      List.dedup_nil]
    push_cast
    norm_num
  exact ⟨hmain, by rw [hmain]; rfl⟩

/-! ## C3 -/

theorem sorted_head_fetched (L : List CachedIndexDataRow) (t : ℚ)
    (hne : L ≠ [])
    (hub : ∀ r ∈ L, r.fetched_at ≤ t)
    (hex : ∃ r ∈ L, r.fetched_at = t) :
    ∃ r0 rest, L.insertionSort fetchedDesc = r0 :: rest ∧ r0.fetched_at = t := by
  have hperm : List.Perm (L.insertionSort fetchedDesc) L :=
    List.perm_insertionSort fetchedDesc L
  have hsorted : List.Sorted fetchedDesc (L.insertionSort fetchedDesc) :=
    List.sorted_insertionSort fetchedDesc L
  cases hS : L.insertionSort fetchedDesc with
  | nil =>
    exfalso
    rw [hS] at hperm
    exact hne hperm.symm.eq_nil
  | cons r0 rest =>
    refine ⟨r0, rest, rfl, ?_⟩
    rw [hS] at hperm hsorted
    have h0L : r0 ∈ L := hperm.mem_iff.mp (List.mem_cons_self r0 rest)
    have h1 : r0.fetched_at ≤ t := hub r0 h0L
    obtain ⟨rt, hrtL, hrtt⟩ := hex
    have hrt2 : rt ∈ r0 :: rest := hperm.mem_iff.mpr hrtL
    rcases List.mem_cons.mp hrt2 with heq | hmem
    · exact heq ▸ hrtt
    · have hdesc : fetchedDesc r0 rt := (List.sorted_cons.mp hsorted).1 rt hmem
      exact le_antisymm h1 (hrtt ▸ hdesc)

theorem cache_read_roundtrip (db : List CachedIndexDataRow)
    (index_id symbol period interval : String) (data : List TimeSeriesPoint)
    (t now : ℚ)
    (hold : ∀ r ∈ db, rowMatchesKey index_id period interval r = true →
      r.fetched_at < t)
    (hdata : data ≠ [])
    (hfresh : now < t + cacheTTLof
      (if interval ∈ intradayIntervals then "intraday_data" else "daily_data")) :
    get_cached_index_data
        (cache_index_data db index_id symbol period interval data t)
        index_id period interval now
      = some (((data.map (toCachedRow index_id symbol period interval t)).insertionSort
          dateAsc).map (toReadPoint interval)) := by
  have hD : cache_index_data db index_id symbol period interval data t
      = db.diff (pruneLoop ((db.filter
          (rowMatchesKey index_id period interval)).insertionSort fetchedDesc) [])
        ++ data.map (toCachedRow index_id symbol period interval t) := rfl
  have hdb1old : ∀ r ∈ db.diff (pruneLoop ((db.filter
      (rowMatchesKey index_id period interval)).insertionSort fetchedDesc) []),
      r ∈ db := fun r hr => List.diff_subset _ _ hr
  have hnewKey : ∀ r ∈ data.map (toCachedRow index_id symbol period interval t),
      rowMatchesKey index_id period interval r = true := by
    intro r hr
    obtain ⟨p, _, rfl⟩ := List.mem_map.mp hr
    simp [rowMatchesKey, toCachedRow]
  have hnewT : ∀ r ∈ data.map (toCachedRow index_id symbol period interval t),
      r.fetched_at = t := by
    intro r hr
    obtain ⟨p, _, rfl⟩ := List.mem_map.mp hr
    rfl
  have hfilD : ((db.diff (pruneLoop ((db.filter
      (rowMatchesKey index_id period interval)).insertionSort fetchedDesc) [])
        ++ data.map (toCachedRow index_id symbol period interval t)).filter
          (rowMatchesKey index_id period interval))
      = ((db.diff (pruneLoop ((db.filter
          (rowMatchesKey index_id period interval)).insertionSort fetchedDesc) [])).filter
            (rowMatchesKey index_id period interval))
        ++ data.map (toCachedRow index_id symbol period interval t) := by
    rw [List.filter_append]
    congr 1
    exact List.filter_eq_self.mpr hnewKey
  have hnne : data.map (toCachedRow index_id symbol period interval t) ≠ [] := by
    intro hcon
    exact hdata (List.map_eq_nil.mp hcon)
  obtain ⟨r0, rest, hS, hr0t⟩ := sorted_head_fetched
    (((db.diff (pruneLoop ((db.filter
      (rowMatchesKey index_id period interval)).insertionSort fetchedDesc) [])
        ++ data.map (toCachedRow index_id symbol period interval t)).filter
          (rowMatchesKey index_id period interval))) t
    (by
      rw [hfilD]
      intro hcon
      exact hnne (List.append_eq_nil.mp hcon).2)
    (by
      rw [hfilD]
      intro r hr
      rcases List.mem_append.mp hr with h | h
      · exact le_of_lt (hold r (hdb1old r (List.mem_filter.mp h).1)
          (List.mem_filter.mp h).2)
      · exact le_of_eq (hnewT r h))
    (by
      rw [hfilD]
      obtain ⟨p0, data2, rfl⟩ := List.exists_cons_of_ne_nil hdata
      refine ⟨toCachedRow index_id symbol period interval t p0,
        List.mem_append_right _ ?_, rfl⟩
      exact List.mem_map_of_mem _ (List.mem_cons_self p0 data2))
  have hS' : (((db.diff (pruneLoop ((db.filter
      (rowMatchesKey index_id period interval)).insertionSort fetchedDesc) [])
        ++ data.map (toCachedRow index_id symbol period interval t)).filter
          (rowMatchesKey index_id period interval)).insertionSort fetchedDesc).head?
      = some r0 := by
    rw [hS]
    rfl
  have hvalid : is_cache_valid now (some t)
      (if interval ∈ intradayIntervals then "intraday_data" else "daily_data")
      = true := by
    simp only [is_cache_valid, decide_eq_true_eq]
    exact hfresh
  have hfil2 : ((db.diff (pruneLoop ((db.filter
      (rowMatchesKey index_id period interval)).insertionSort fetchedDesc) [])
        ++ data.map (toCachedRow index_id symbol period interval t)).filter
          (fun r => rowMatchesKey index_id period interval r && r.fetched_at == t))
      = data.map (toCachedRow index_id symbol period interval t) := by
    rw [List.filter_append]
    have h1 : ((db.diff (pruneLoop ((db.filter
        (rowMatchesKey index_id period interval)).insertionSort fetchedDesc) [])).filter
          (fun r => rowMatchesKey index_id period interval r && r.fetched_at == t))
        = [] := by
      rw [List.filter_eq_nil]
      intro r hr
      simp only [Bool.and_eq_true, beq_iff_eq, not_and]
      intro hk ht
      exact absurd ht (ne_of_lt (hold r (hdb1old r hr) hk))
    have h2 : ((data.map (toCachedRow index_id symbol period interval t)).filter
        (fun r => rowMatchesKey index_id period interval r && r.fetched_at == t))
        = data.map (toCachedRow index_id symbol period interval t) := by
      rw [List.filter_eq_self]
      intro r hr
      simp only [Bool.and_eq_true, beq_iff_eq]
      exact ⟨hnewKey r hr, hnewT r hr⟩
    rw [h1, h2, List.nil_append]
  rw [hD]
  simp only [get_cached_index_data, hS', hr0t, hvalid, if_true, hfil2]

/-- A one-bar intraday write whose date string carries a time of day. -/
def c3Point : TimeSeriesPoint :=
  { date := "2024-01-01 10:30:00", openP := 1, highP := 2, lowP := 0, closeP := 1,
    volume := 5, change_percent := some 1 }

/-- C3 counterexample: an intraday (`"1h"`) write of a point dated
`"2024-01-01 10:30:00"` immediately followed by a fresh read with the
identical key does not return the point unmodified: the stored date kept
only the day (`strptime(date.split()[0], "%Y-%m-%d")`), so the read
formats it back as `"2024-01-01 00:00:00"`. -/
theorem c3_counterexample :
    get_cached_index_data
        (cache_index_data [] "IDX" "SYM" "1d" "1h" [c3Point] 0) "IDX" "1d" "1h" 1
      ≠ some [c3Point] := by
  rw [cache_read_roundtrip [] "IDX" "SYM" "1d" "1h" [c3Point] 0 1
    (fun r hr => absurd hr (List.not_mem_nil r))
    (by simp [c3Point])
    (by
      rw [show cacheTTLof (if "1h" ∈ intradayIntervals then "intraday_data"
        else "daily_data") = 15 from rfl]
      norm_num)]
  decide

/-- C3 (amended): a `cache_index_data` write immediately followed by a
still-fresh `get_cached_index_data` with the identical key returns exactly
the just-written points sorted ascending by date, with all fields
unmodified except the date: only the day part of a written date string is
kept (formatted back as `"YYYY-MM-DD"` for daily intervals and
`"YYYY-MM-DD 00:00:00"` for intraday ones, any time of day being
discarded).  In particular, for a daily interval whose written dates are
pure `"YYYY-MM-DD"` strings already in ascending order, the read returns
the written points completely unmodified, in order. -/
theorem c3_amended_write_read (db : List CachedIndexDataRow)
    (index_id symbol period interval : String) (data : List TimeSeriesPoint)
    (t now : ℚ)
    (hold : ∀ r ∈ db, rowMatchesKey index_id period interval r = true →
      r.fetched_at < t)
    (hdata : data ≠ [])
    (hfresh : now < t + cacheTTLof
      (if interval ∈ intradayIntervals then "intraday_data" else "daily_data")) :
    (get_cached_index_data
        (cache_index_data db index_id symbol period interval data t)
        index_id period interval now
      = some (((data.map (toCachedRow index_id symbol period interval t)).insertionSort
          dateAsc).map (toReadPoint interval)))
    ∧ (interval ∉ intradayIntervals →
        (∀ p ∈ data, splitFirstToken p.date.data = p.date.data) →
        List.Sorted (fun p q : TimeSeriesPoint => strLe p.date q.date = true) data →
        get_cached_index_data
            (cache_index_data db index_id symbol period interval data t)
            index_id period interval now
          = some data) := by
  refine ⟨cache_read_roundtrip db index_id symbol period interval data t now
    hold hdata hfresh, ?_⟩
  intro hday hns hsorted
  rw [cache_read_roundtrip db index_id symbol period interval data t now
    hold hdata hfresh]
  have hdates : ∀ p ∈ data, storedDay p.date = p.date := by
    intro p hp
    unfold storedDay
    rw [hns p hp]
  have hrowsSorted : List.Sorted dateAsc
      (data.map (toCachedRow index_id symbol period interval t)) := by
    rw [List.Sorted, List.pairwise_map]
    refine List.Pairwise.imp_of_mem ?_ hsorted
    intro p q hp hq hpq
    show strLe (storedDay p.date) (storedDay q.date) = true
    rw [hdates p hp, hdates q hq]
    exact hpq
  rw [hrowsSorted.insertionSort_eq]
  have hpt : ∀ p ∈ data,
      toReadPoint interval (toCachedRow index_id symbol period interval t p) = p := by
    intro p hp
    have hd := hdates p hp
    simp only [toReadPoint, toCachedRow, hday, if_false]
    rw [hd]
  have hpt2 : ∀ p ∈ data,
      (toReadPoint interval ∘ toCachedRow index_id symbol period interval t) p
        = id p := hpt
  rw [List.map_map, List.map_congr_left hpt2, List.map_id]

/-- C3 witness: for a daily write of one bar dated `"2024-01-05"` into an
empty table, a fresh read returns exactly the written point. -/
theorem c3_amended_write_read_witness :
    get_cached_index_data
        (cache_index_data [] "IDX" "SYM" "1mo" "1d"
          [{ c3Point with date := "2024-01-05" }] 0) "IDX" "1mo" "1d" 1
      = some [{ c3Point with date := "2024-01-05" }] :=
  (c3_amended_write_read [] "IDX" "SYM" "1mo" "1d"
      [{ c3Point with date := "2024-01-05" }] 0 1
      (fun r hr => absurd hr (List.not_mem_nil r))
      (by simp [c3Point])
      (by
        rw [show cacheTTLof (if "1d" ∈ intradayIntervals then "intraday_data"
          else "daily_data") = 60 from rfl]
        norm_num)).2
    (by decide)
    (by decide)
    (List.sorted_singleton _)

end Sentilytics
